import Mathlib

/-!
Verification development for the ZeroEntropy RSS-article retrieval layer
(backend/indexer_ze.py, backend/utils_ze.py, backend/search_ze.py,
backend/__main__.py, frontend/streamlit_app_ze.py).

The remote index service, the reranking model and the HTML parser are
external collaborators; they enter the model as explicit function
parameters (environments).  Relevance scores are only ever copied, never
computed on, so they are represented by an abstract integer stand-in.
-/

namespace ZCookbook

/-- Python string slicing s[:n]: the first n characters (code points). -/
def pySlice (s : String) (n : Nat) : String := ⟨s.data.take n⟩

/-- Python truthiness of an optional string: None and the empty string
are falsy, any other string is truthy. -/
def pyTruthyOpt : Option String → Bool
  | none => false
  | some s => !(s == "")

/-- Python str.replace("\n", " "): since the pattern is a single
character, this is exactly a character-wise substitution. -/
def pyReplaceNewlines (s : String) : String :=
  ⟨s.data.map (fun c => if c = '\n' then ' ' else c)⟩

/-- Python dict.get(key, "") on a string-valued mapping modelled as an
association list. -/
def pyDictGet (m : List (String × String)) (k : String) : String :=
  ((m.find? (fun p => p.1 == k)).map Prod.snd).getD ""

/-- Exceptions that can escape the orchestration functions.
listIndexError models an IndexError from list subscription;
writeFailure models any non-conflict error raised by
zclient.documents.add; configurationError models the exception raised
by search_articles when no branch of the search-type dispatch binds
results (the spec taxonomy's ConfigurationError for an unknown mode). -/
inductive PyErr where
  | listIndexError
  | writeFailure
  | configurationError
deriving DecidableEq, Repr

/-- Relevance scores are service-defined floats that the orchestrator
only moves around (never adds, compares or rescales), so an integer
stand-in preserves the data flow exactly. -/
abbrev Score := Int

/-- One broad-retrieval result dict from queries.top_documents
(utils_ze.py line 287): path, score, and the metadata snapshot. -/
structure SearchResult where
  path : String
  score : Score
  metadata : List (String × String)
deriving DecidableEq, Repr

/-- The document record returned by documents.get_info (utils_ze.py
get_document_info); only its optional content field is consumed. -/
structure DocInfo where
  content : Option String
deriving DecidableEq, Repr

/-- One entry of models.rerank's response: an index into the submitted
text list plus the reranker's relevance score. -/
structure RerankResult where
  index : Nat
  relevance_score : Score
deriving DecidableEq, Repr

/-- The merged dict built at utils_ze.py lines 326-334:
the spread of the original result plus the two score fields. -/
structure RerankedResult where
  original : SearchResult
  rerank_score : Score
  original_score : Score
deriving DecidableEq, Repr

/-- The external calls consumed by ZeroEntropyUtils.search_and_rerank:
queries.top_documents (query, k), documents.get_info with
include_content=True (path), and models.rerank (query, texts, top_n). -/
structure UtilsEnv where
  topDocuments : String → Nat → List SearchResult
  getDocumentInfo : String → Option DocInfo
  rerank : String → List String → Nat → List RerankResult

/-- The fallback text of utils_ze.py lines 311-315:
metadata title and description joined by one space. -/
def fallbackText (r : SearchResult) : String :=
  pyDictGet r.metadata "title" ++ " " ++ pyDictGet r.metadata "description"

/-- Hydration of one candidate (utils_ze.py lines 301-315): fetch the
document, use its content when the fetch returned a record whose
content is truthy, otherwise synthesize the metadata fallback. -/
def hydratedText (env : UtilsEnv) (r : SearchResult) : String :=
  match env.getDocumentInfo r.path with
  | some d =>
    match d.content with
    | some c => if c ≠ "" then c else fallbackText r
    | none => fallbackText r
  | none => fallbackText r

/-- The document_texts list of utils_ze.py lines 299-315: one hydrated
text per broad-retrieval candidate, in candidate order. -/
def documentTexts (env : UtilsEnv) (query : String) (k : Nat) : List String :=
  (env.topDocuments query k).map (hydratedText env)

/-- The top_n argument passed to rerank_documents at utils_ze.py
line 321: min(rerank_top_n, len(document_texts)). -/
def rerankRequestedTopN (env : UtilsEnv) (query : String) (k rerank_top_n : Nat) : Nat :=
  min rerank_top_n (documentTexts env query k).length

/-- The rerank response consumed at utils_ze.py lines 318-322. -/
def rerankResponse (env : UtilsEnv) (query : String) (k rerank_top_n : Nat) :
    List RerankResult :=
  env.rerank query (documentTexts env query k) (rerankRequestedTopN env query k rerank_top_n)

/-- The merge of one rerank entry (utils_ze.py lines 326-334):
search_results.results[rerank_result.index] spread together with
rerank_score and original_score; an out-of-range index raises. -/
def mergeOne (results : List SearchResult) (rr : RerankResult) :
    Except PyErr RerankedResult :=
  match results[rr.index]? with
  | some original => .ok ⟨original, rr.relevance_score, original.score⟩
  | none => .error .listIndexError

/-- ZeroEntropyUtils.search_and_rerank (utils_ze.py lines 251-336):
broad retrieval, empty-result short circuit, hydration, reranking with
top_n = min(rerank_top_n, len(document_texts)), and the score-preserving
merge in reranker order. -/
def searchAndRerank (env : UtilsEnv) (query : String) (k rerank_top_n : Nat) :
    Except PyErr (List RerankedResult) :=
  let search_results := env.topDocuments query k
  if search_results.isEmpty then .ok []
  else
    (rerankResponse env query k rerank_top_n).mapM (mergeOne search_results)

/-- An Article record: one element of the dict list produced by
ZeroEntropyArticleIndexer.get_rss_feed_content (indexer_ze.py
lines 113-121). -/
structure Article where
  title : String
  creator : String
  categories : List String
  description : String
  pub_date : String
  content : String
  source_url : String
deriving DecidableEq, Repr

/-- One parsed feed item as the XML layer hands it over: each optional
tag is either absent or carries its stripped text; categories collect
the text of every category tag. -/
structure FeedItem where
  title : Option String
  creator : Option String
  categories : List String
  description : Option String
  pubDate : Option String
  contentEncoded : Option String
deriving DecidableEq, Repr

/-- The per-item body of get_rss_feed_content (indexer_ze.py lines
90-121).  extractText is the external BeautifulSoup step on the encoded
body or the description string: parse as HTML, decompose script and
style elements, get_text(separator=" ", strip=True).  The source then
applies .replace("\n", " ") to its output. -/
def mkArticle (extractText : String → String) (url : String) (it : FeedItem) : Article :=
  let title := it.title.getD "N/A"
  let creator := it.creator.getD "N/A"
  let description := it.description.getD "N/A"
  let publication_date := it.pubDate.getD "N/A"
  let content_encoded := it.contentEncoded.getD "N/A"
  let content_text :=
    if content_encoded ≠ "N/A" then pyReplaceNewlines (extractText content_encoded)
    else pyReplaceNewlines (extractText description)
  { title := title
    creator := creator
    categories := it.categories
    description := description
    pub_date := publication_date
    content := content_text
    source_url := url }

/-- get_rss_feed_content over a whole feed: one Article per item, all
carrying the feed URL as source_url. -/
def getRssFeedContent (extractText : String → String) (url : String)
    (items : List FeedItem) : List Article :=
  items.map (mkArticle extractText url)

/-- The document path of indexer_ze.py line 145:
f-string "article_{idx}_{hash(title[:50])}".  Python's builtin hash on
str is salted per interpreter process (PYTHONHASHSEED), so the hash
function is an explicit parameter of the model; one fixed pyHash is one
interpreter run. -/
def docPath (pyHash : String → Int) (idx : Nat) (title : String) : String :=
  "article_" ++ toString idx ++ "_" ++ toString (pyHash (pySlice title 50))

/-- The indexable text of indexer_ze.py lines 148-150. -/
def fullContent (a : Article) : String :=
  "Title: " ++ a.title ++ "\n\n" ++ "Description: " ++ a.description ++ "\n\n"
    ++ "Content: " ++ a.content

/-- The capped metadata record of indexer_ze.py lines 153-160. -/
structure Metadata where
  title : String
  creator : String
  categories : String
  pub_date : String
  source_url : String
  type : String
deriving DecidableEq, Repr

/-- Metadata construction (indexer_ze.py lines 153-160): slice caps on
every field, at most five categories joined by ", ". -/
def mkMetadata (a : Article) : Metadata :=
  { title := pySlice a.title 500
    creator := pySlice a.creator 200
    categories := pySlice (String.intercalate ", " (a.categories.take 5)) 300
    pub_date := pySlice a.pub_date 100
    source_url := pySlice a.source_url 300
    type := "rss_article" }

/-- Outcome of one zclient.documents.add call: written, ConflictError
(the document path already exists), or any other raised error. -/
inductive WriteOutcome where
  | written
  | conflict
  | failed
deriving DecidableEq, Repr

/-- The for-loop of index_articles (indexer_ze.py lines 142-176) with
explicit state: remaining articles, enumerate index, indexed_count and
failed_count.  A written outcome increments indexed_count; a
ConflictError is caught and the loop continues; any other error
propagates out of the function (only ConflictError is caught). -/
def indexLoop (pyHash : String → Int)
    (add : String → String → Metadata → WriteOutcome) :
    List Article → Nat → Nat → Nat → Except PyErr (Nat × Nat)
  | [], _, indexed_count, failed_count => .ok (indexed_count, failed_count)
  | a :: rest, idx, indexed_count, failed_count =>
    match add (docPath pyHash idx a.title) (fullContent a) (mkMetadata a) with
    | .written => indexLoop pyHash add rest (idx + 1) (indexed_count + 1) failed_count
    | .conflict => indexLoop pyHash add rest (idx + 1) indexed_count failed_count
    | .failed => .error .writeFailure

/-- ZeroEntropyArticleIndexer.index_articles (indexer_ze.py lines
125-178): run the loop from (idx 0, indexed_count 0, failed_count 0)
and report the final counter pair. -/
def indexArticles (pyHash : String → Int)
    (add : String → String → Metadata → WriteOutcome)
    (articles : List Article) : Except PyErr (Nat × Nat) :=
  indexLoop pyHash add articles 0 0 0

/-- A metadata filter clause: the {"$eq": value} object built by
search_articles (main file lines 94 and 96). -/
inductive FilterClause where
  | eq (value : String)
deriving DecidableEq, Repr

/-- The filter construction of search_articles (main file lines 92-98)
and of the frontend get_search_results (streamlit_app_ze.py lines
43-48): start from an empty dict, add an equality clause per truthy
argument (creator first, then categories), and turn an empty dict into
None. -/
def buildFilter (filter_creator filter_category : Option String) :
    Option (List (String × FilterClause)) :=
  let filter_dict : List (String × FilterClause) :=
    (match filter_creator with
     | some s => if s ≠ "" then [("creator", FilterClause.eq s)] else []
     | none => []) ++
    (match filter_category with
     | some s => if s ≠ "" then [("categories", FilterClause.eq s)] else []
     | none => [])
  if filter_dict.isEmpty then none else some filter_dict

/-- One snippet result dict (search_ze.py lines 151-159). -/
structure SnippetResult where
  path : String
  score : Score
  start_index : Nat
  end_index : Nat
  content : String
  metadata : List (String × String)
deriving DecidableEq, Repr

/-- One page result dict (search_ze.py lines 212-218). -/
structure PageResult where
  path : String
  score : Score
  page_index : Nat
  content : String
  metadata : List (String × String)
deriving DecidableEq, Repr

/-- The searcher calls consumed by search_articles: the three
ZeroEntropyArticleSearcher wrappers (query, k, filter, reranker for
documents and snippets; query, k, filter for pages) plus the utils
environment used by the advanced branch. -/
structure SearchEnv where
  searchDocuments : String → Nat → Option (List (String × FilterClause)) → String →
    List SearchResult
  searchSnippets : String → Nat → Option (List (String × FilterClause)) → String →
    List SnippetResult
  searchPages : String → Nat → Option (List (String × FilterClause)) → List PageResult
  utils : UtilsEnv

/-- The value search_articles returns: one of the four result-list
shapes, tagged by the branch that produced it. -/
inductive SearchResults where
  | documents (rs : List SearchResult)
  | snippets (rs : List SnippetResult)
  | pages (rs : List PageResult)
  | advanced (rs : List RerankedResult)
deriving DecidableEq, Repr

/-- ZeroEntropyArticleManager.search_articles (main file lines 76-131):
build the filter, dispatch on search_type; the advanced branch calls
search_and_rerank with k doubled and rerank_top_n = k and no filter.
When no branch matches, the local variable results was never bound and
the trailing return raises (UnboundLocalError): modelled as the
configurationError exception. -/
def searchArticles (env : SearchEnv) (query : String) (search_type : String)
    (k : Nat) (filter_creator filter_category : Option String)
    (reranker : String) : Except PyErr SearchResults :=
  let filter_dict := buildFilter filter_creator filter_category
  if search_type = "documents" then
    .ok (.documents (env.searchDocuments query k filter_dict reranker))
  else if search_type = "snippets" then
    .ok (.snippets (env.searchSnippets query k filter_dict reranker))
  else if search_type = "pages" then
    .ok (.pages (env.searchPages query k filter_dict))
  else if search_type = "advanced" then
    (searchAndRerank env.utils query (k * 2) k).map SearchResults.advanced
  else
    .error .configurationError

/-- The frontend router get_search_results (streamlit_app_ze.py lines
30-76): same dispatch, but an unknown search_type silently yields the
empty result list instead of raising. -/
def getSearchResults (env : SearchEnv) (query : String) (search_type : String)
    (k : Nat) (filter_creator filter_category : Option String)
    (reranker : String) : Except PyErr SearchResults :=
  let filter_dict := buildFilter filter_creator filter_category
  if search_type = "documents" then
    .ok (.documents (env.searchDocuments query k filter_dict reranker))
  else if search_type = "snippets" then
    .ok (.snippets (env.searchSnippets query k filter_dict reranker))
  else if search_type = "pages" then
    .ok (.pages (env.searchPages query k filter_dict))
  else if search_type = "advanced" then
    (searchAndRerank env.utils query (k * 2) k).map SearchResults.advanced
  else
    .ok (.documents [])

/-- The status counters returned by zclient.status.get (search_ze.py
lines 338-359). -/
structure CollectionStatus where
  num_documents : Nat
  num_indexed_documents : Nat
  num_parsing_documents : Nat
  num_indexing_documents : Nat
  num_failed_documents : Nat
deriving DecidableEq, Repr

/-- Log lines relevant to collection management. -/
inductive LogMsg where
  | deletedCollectionUtils
  | availableCollections
  | deleteSucceeded
  | deleteFailed
  | invalidAction
deriving DecidableEq, Repr

/-- ZeroEntropyUtils.delete_collection (utils_ze.py lines 82-98):
await the service delete (any raised error propagates), log success,
return True.  The Bool result with its logs, or the propagated error. -/
def deleteCollection (outcome : Except PyErr Unit) :
    Except PyErr (Bool × List LogMsg) :=
  match outcome with
  | .ok _ => .ok (true, [LogMsg.deletedCollectionUtils])
  | .error e => .error e

/-- External calls consumed by manage_collections. -/
structure ManageEnv where
  listCollections : List String
  deleteOutcome : String → Except PyErr Unit
  status : CollectionStatus

/-- The value manage_collections returns per branch (None for the
invalid-action branch). -/
inductive ManageResult where
  | collections (names : List String)
  | deleted (success : Bool)
  | status (s : CollectionStatus)
  | noneResult
deriving DecidableEq, Repr

/-- ZeroEntropyArticleManager.manage_collections (main file lines
133-154), with the emitted log lines made explicit.  The delete branch
requires a truthy collection_name; it logs deleteSucceeded when
delete_collection returned True and deleteFailed otherwise. -/
def manageCollections (env : ManageEnv) (action : String)
    (collection_name : Option String) :
    Except PyErr (ManageResult × List LogMsg) :=
  if action = "list" then
    .ok (.collections env.listCollections, [LogMsg.availableCollections])
  else if action = "delete" ∧ pyTruthyOpt collection_name = true then
    match deleteCollection (env.deleteOutcome (collection_name.getD "")) with
    | .ok (success, logs) =>
      if success then .ok (.deleted success, logs ++ [LogMsg.deleteSucceeded])
      else .ok (.deleted success, logs ++ [LogMsg.deleteFailed])
    | .error e => .error e
  else if action = "status" then
    .ok (.status env.status, [])
  else
    .ok (.noneResult, [LogMsg.invalidAction])

/-! Helper lemmas shared across the development. -/

/-- Python slicing never yields more than the requested length. -/
theorem pySlice_length_le (s : String) (n : Nat) : (pySlice s n).length ≤ n := by
  show (s.data.take n).length ≤ n
  exact List.length_take_le n s.data

/-- A finished mapM over Except keeps list length. -/
theorem mapM_ok_length {α β : Type} (f : α → Except PyErr β) :
    ∀ (l : List α) (ys : List β), l.mapM f = .ok ys → ys.length = l.length := by
  intro l
  induction l with
  | nil =>
    intro ys h
    rw [List.mapM_nil] at h
    cases h
    rfl
  | cons a rest ih =>
    intro ys h
    rw [List.mapM_cons] at h
    cases hfa : f a with
    | error e => rw [hfa] at h; cases h
    | ok b =>
      rw [hfa] at h
      cases hrest : rest.mapM f with
      | error e => rw [hrest] at h; cases h
      | ok bs =>
        rw [hrest] at h
        cases h
        simpa using ih bs hrest

/-- Merging a rerank response whose indices are all in range succeeds,
is length-preserving, and resolves every entry back to the candidate
its index names, copying both scores. -/
theorem mergeAll_ok (results : List SearchResult) :
    ∀ rl : List RerankResult,
      (∀ rr ∈ rl, rr.index < results.length) →
      ∃ finals : List RerankedResult, rl.mapM (mergeOne results) = .ok finals ∧
        finals.length = rl.length ∧
        ∀ (i : Nat) (f : RerankedResult) (rr : RerankResult),
          finals[i]? = some f → rl[i]? = some rr →
          ∃ c : SearchResult, results[rr.index]? = some c ∧ f.original = c ∧
            f.original_score = c.score ∧ f.rerank_score = rr.relevance_score := by
  intro rl
  induction rl with
  | nil =>
    intro _
    refine ⟨[], by rw [List.mapM_nil]; rfl, rfl, ?_⟩
    intro i f rr hf _
    simp at hf
  | cons rr0 rest ih =>
    intro h
    have h0 : rr0.index < results.length := h rr0 (by simp)
    have hc : results[rr0.index]? = some results[rr0.index] :=
      List.getElem?_eq_getElem h0
    obtain ⟨finals, hm, hlen, hpt⟩ := ih (fun rr hrr => h rr (by simp [hrr]))
    refine ⟨⟨results[rr0.index], rr0.relevance_score, results[rr0.index].score⟩ :: finals,
      ?_, by simpa using hlen, ?_⟩
    · rw [List.mapM_cons]
      simp only [mergeOne, hc, hm]
      rfl
    · intro i f rr hf hrr
      cases i with
      | zero =>
        simp only [List.getElem?_cons_zero, Option.some.injEq] at hf hrr
        subst hf; subst hrr
        exact ⟨results[rr0.index], hc, rfl, rfl, rfl⟩
      | succ i =>
        simp only [List.getElem?_cons_succ] at hf hrr
        exact hpt i f rr hf hrr

/-! Claim theorems. -/

/-- Claim C9: every metadata record built during ingestion satisfies
the fixed length caps — title at most 500 characters, creator at most
200, the joined categories string at most 300, publication date at
most 100, source_url at most 300. -/
theorem index_metadata_length_caps (a : Article) :
    (mkMetadata a).title.length ≤ 500 ∧
    (mkMetadata a).creator.length ≤ 200 ∧
    (mkMetadata a).categories.length ≤ 300 ∧
    (mkMetadata a).pub_date.length ≤ 100 ∧
    (mkMetadata a).source_url.length ≤ 300 :=
  ⟨pySlice_length_le _ _, pySlice_length_le _ _, pySlice_length_le _ _,
    pySlice_length_le _ _, pySlice_length_le _ _⟩

/-- Claim C6 (divergence): the document key depends on the ambient
Python string hash, which is salted per interpreter process, so the
same (ordinal, title) yields different keys under two different hash
seeds — the key is not stable across repeated runs. -/
theorem doc_path_depends_on_hash_seed :
    docPath (fun _ => 0) 0 "Star returns to TV"
      ≠ docPath (fun _ => 1) 0 "Star returns to TV" := by
  decide

/-- Claim C2 (divergence): a non-conflict write failure on the first
article makes index_articles raise, aborting the whole batch; it never
returns a counter pair, so the failure is not counted in failed_count. -/
theorem index_articles_write_error_aborts (a b : Article) :
    indexArticles (fun _ => 0)
        (fun p _ _ => if p = "article_0_0" then .failed else .written) [a, b]
      = .error .writeFailure ∧
    ∀ indexed_count failed_count : Nat,
      indexArticles (fun _ => 0)
          (fun p _ _ => if p = "article_0_0" then .failed else .written) [a, b]
        ≠ .ok (indexed_count, failed_count) := by
  refine ⟨rfl, ?_⟩
  intro indexed_count failed_count h
  rw [show indexArticles (fun _ => 0)
      (fun p _ _ => if p = "article_0_0" then WriteOutcome.failed else .written) [a, b]
      = .error .writeFailure from rfl] at h
  cases h

/-- Claim C3: a ConflictError on one article is absorbed — the loop
proceeds to the next article with both counters unchanged and no
exception; ingesting three articles where exactly the write at
ordinal 1 conflicts reports indexed_count = 2 (and failed_count = 0). -/
theorem index_articles_conflict_policy :
    (∀ (pyHash : String → Int) (add : String → String → Metadata → WriteOutcome)
        (a : Article) (rest : List Article) (idx indexed_count failed_count : Nat),
      add (docPath pyHash idx a.title) (fullContent a) (mkMetadata a) = .conflict →
      indexLoop pyHash add (a :: rest) idx indexed_count failed_count
        = indexLoop pyHash add rest (idx + 1) indexed_count failed_count) ∧
    (∀ a0 a1 a2 : Article,
      indexArticles (fun _ => 0)
          (fun p _ _ => if p = "article_1_0" then .conflict else .written)
          [a0, a1, a2]
        = .ok (2, 0)) := by
  constructor
  · intro pyHash add a rest idx indexed_count failed_count hconf
    rw [indexLoop, hconf]
  · intro a0 a1 a2
    rfl

/-- Witness for C3: a conflicting write is skipped with counters
unchanged. -/
theorem index_articles_conflict_policy_witness :
    indexLoop (fun _ => 0) (fun _ _ _ => .conflict)
        [⟨"t", "c", [], "d", "pd", "x", "u"⟩] 0 4 1
      = indexLoop (fun _ => 0) (fun _ _ _ => .conflict) [] 1 4 1 :=
  index_articles_conflict_policy.1 (fun _ => 0) (fun _ _ _ => .conflict)
    ⟨"t", "c", [], "d", "pd", "x", "u"⟩ [] 0 4 1 rfl

/-- Behavior of the external BeautifulSoup text extraction on the
concrete inputs used below: the markup "<p></p>" contains no text, so
get_text(separator=" ", strip=True) returns ""; plain text with no
tags is returned unchanged. -/
def bs4TextStub (s : String) : String := if s = "<p></p>" then "" else s

/-- Claim C7 counterexample: a feed item with no encoded body and a
non-empty description can still produce empty or sentinel content —
a markup-only description yields "", and a description whose text is
the literal "N/A" yields the sentinel itself. -/
theorem rss_fallback_sentinel_cex :
    ("<p></p>" ≠ "" ∧
      (mkArticle bs4TextStub "https://vsd.fr/tele/feed/"
        ⟨some "T", none, [], some "<p></p>", none, none⟩).content = "") ∧
    ("N/A" ≠ "" ∧
      (mkArticle bs4TextStub "https://vsd.fr/tele/feed/"
        ⟨some "T", none, [], some "N/A", none, none⟩).content = "N/A") := by
  decide

/-- Claim C7 (amended): with no encoded body, the content is exactly
the stripped, newline-collapsed description text; whenever that
extracted text is non-empty and differs from the sentinel, the content
is non-sentinel and non-empty. -/
theorem rss_fallback_completeness
    (extractText : String → String) (url : String) (it : FeedItem) (d : String)
    (hEnc : it.contentEncoded = none) (hDesc : it.description = some d)
    (h1 : pyReplaceNewlines (extractText d) ≠ "")
    (h2 : pyReplaceNewlines (extractText d) ≠ "N/A") :
    (mkArticle extractText url it).content = pyReplaceNewlines (extractText d) ∧
    (mkArticle extractText url it).content ≠ "" ∧
    (mkArticle extractText url it).content ≠ "N/A" := by
  have hc : (mkArticle extractText url it).content
      = pyReplaceNewlines (extractText d) := by
    simp [mkArticle, hEnc, hDesc]
  exact ⟨hc, hc ▸ h1, hc ▸ h2⟩

/-- Witness for C7: a plain-text description becomes the content
verbatim, non-empty and non-sentinel. -/
theorem rss_fallback_completeness_witness :
    (mkArticle (fun s => s) "https://www.public.fr/feed"
      ⟨some "T", none, [], some "Bonjour", none, none⟩).content
        = pyReplaceNewlines "Bonjour" ∧
    (mkArticle (fun s => s) "https://www.public.fr/feed"
      ⟨some "T", none, [], some "Bonjour", none, none⟩).content ≠ "" ∧
    (mkArticle (fun s => s) "https://www.public.fr/feed"
      ⟨some "T", none, [], some "Bonjour", none, none⟩).content ≠ "N/A" :=
  rss_fallback_completeness (fun s => s) "https://www.public.fr/feed"
    ⟨some "T", none, [], some "Bonjour", none, none⟩ "Bonjour"
    rfl rfl (by decide) (by decide)

/-- Claim C1: whenever every index returned by the reranker is in
range, search_and_rerank succeeds and every output item carries, as
original_score, the broad-retrieval score of exactly the candidate the
reranker's index refers to, and, as rerank_score, the relevance score
the reranker assigned at that position — for any permutation (indeed
any index list) the reranker returns. -/
theorem search_and_rerank_score_preservation
    (env : UtilsEnv) (query : String) (k rerank_top_n : Nat)
    (h : ∀ rr ∈ rerankResponse env query k rerank_top_n,
      rr.index < (env.topDocuments query k).length) :
    ∃ finals : List RerankedResult,
      searchAndRerank env query k rerank_top_n = .ok finals ∧
      finals.length = (rerankResponse env query k rerank_top_n).length ∧
      ∀ (i : Nat) (f : RerankedResult) (rr : RerankResult),
        finals[i]? = some f →
        (rerankResponse env query k rerank_top_n)[i]? = some rr →
        ∃ c : SearchResult, (env.topDocuments query k)[rr.index]? = some c ∧
          f.original = c ∧ f.original_score = c.score ∧
          f.rerank_score = rr.relevance_score := by
  by_cases hemp : (env.topDocuments query k).isEmpty
  · have hnil : env.topDocuments query k = [] := List.isEmpty_iff.mp hemp
    have hresp : rerankResponse env query k rerank_top_n = [] := by
      rcases hr : rerankResponse env query k rerank_top_n with _ | ⟨rr, rest⟩
      · rfl
      · have := h rr (by rw [hr]; simp)
        rw [hnil] at this
        simp at this
    refine ⟨[], ?_, by simp [hresp], ?_⟩
    · simp [searchAndRerank, hemp]
    · intro i f rr hf _
      simp at hf
  · obtain ⟨finals, hm, hlen, hpt⟩ :=
      mergeAll_ok (env.topDocuments query k)
        (rerankResponse env query k rerank_top_n) h
    refine ⟨finals, ?_, hlen, hpt⟩
    simp [searchAndRerank, hemp]
    exact hm

/-- Witness for C1: two candidates, a reranker that swaps them; both
scores are resolved through the returned indices. -/
theorem search_and_rerank_score_preservation_witness :
    ∃ finals : List RerankedResult,
      searchAndRerank
          ⟨fun _ _ => [⟨"p0", 5, []⟩, ⟨"p1", 7, []⟩], fun _ => none,
            fun _ _ _ => [⟨1, 9⟩, ⟨0, 3⟩]⟩ "q" 2 2 = .ok finals ∧
      finals.length = (rerankResponse
          ⟨fun _ _ => [⟨"p0", 5, []⟩, ⟨"p1", 7, []⟩], fun _ => none,
            fun _ _ _ => [⟨1, 9⟩, ⟨0, 3⟩]⟩ "q" 2 2).length ∧
      ∀ (i : Nat) (f : RerankedResult) (rr : RerankResult),
        finals[i]? = some f →
        (rerankResponse
          ⟨fun _ _ => [⟨"p0", 5, []⟩, ⟨"p1", 7, []⟩], fun _ => none,
            fun _ _ _ => [⟨1, 9⟩, ⟨0, 3⟩]⟩ "q" 2 2)[i]? = some rr →
        ∃ c : SearchResult,
          ((⟨fun _ _ => [⟨"p0", 5, []⟩, ⟨"p1", 7, []⟩], fun _ => none,
            fun _ _ _ => [⟨1, 9⟩, ⟨0, 3⟩]⟩ : UtilsEnv).topDocuments "q" 2)[rr.index]?
              = some c ∧
          f.original = c ∧ f.original_score = c.score ∧
          f.rerank_score = rr.relevance_score :=
  search_and_rerank_score_preservation
    ⟨fun _ _ => [⟨"p0", 5, []⟩, ⟨"p1", 7, []⟩], fun _ => none,
      fun _ _ _ => [⟨1, 9⟩, ⟨0, 3⟩]⟩ "q" 2 2 (by decide)

/-- Claim C5: with zero broad-retrieval candidates the pipeline returns
the empty list for every possible reranker (so the reranker is never
consulted); the requested top_n is exactly min(rerank_top_n,
candidate_count); and under the service contract that a rerank call
returns at most top_n entries, the output length is bounded by
min(rerank_top_n, candidate_count). -/
theorem search_and_rerank_cardinality
    (env : UtilsEnv) (query : String) (k rerank_top_n : Nat) :
    ((env.topDocuments query k).isEmpty = true →
      ∀ f : String → List String → Nat → List RerankResult,
        searchAndRerank { env with rerank := f } query k rerank_top_n = .ok []) ∧
    rerankRequestedTopN env query k rerank_top_n
      = min rerank_top_n (env.topDocuments query k).length ∧
    ((∀ (q : String) (ts : List String) (m : Nat), (env.rerank q ts m).length ≤ m) →
      ∀ finals : List RerankedResult,
        searchAndRerank env query k rerank_top_n = .ok finals →
        finals.length ≤ min rerank_top_n (env.topDocuments query k).length) := by
  refine ⟨?_, ?_, ?_⟩
  · intro hemp f
    simp [searchAndRerank]
    intro hne
    exact absurd hemp (by simpa using hne)
  · simp [rerankRequestedTopN, documentTexts]
  · intro hsvc finals hok
    by_cases hemp : (env.topDocuments query k).isEmpty
    · simp [searchAndRerank, hemp] at hok
      simp [hok]
    · simp [searchAndRerank, hemp] at hok
      have hlen := mapM_ok_length (mergeOne (env.topDocuments query k)) _ _ hok
      have hresp : (rerankResponse env query k rerank_top_n).length
          ≤ rerankRequestedTopN env query k rerank_top_n :=
        hsvc query (documentTexts env query k)
          (rerankRequestedTopN env query k rerank_top_n)
      rw [hlen]
      calc (rerankResponse env query k rerank_top_n).length
          ≤ rerankRequestedTopN env query k rerank_top_n := hresp
        _ = min rerank_top_n (env.topDocuments query k).length := by
            simp [rerankRequestedTopN, documentTexts]

/-- Witness for C5: an empty broad stage short-circuits past a
non-trivial reranker, and a one-candidate stage with a one-entry
rerank response respects the cardinality bound. -/
theorem search_and_rerank_cardinality_witness :
    searchAndRerank
        ⟨fun _ _ => [], fun _ => none, fun _ _ _ => [⟨0, 1⟩]⟩
        "royal family" 10 5 = .ok [] ∧
    (∀ finals : List RerankedResult,
        searchAndRerank
          ⟨fun _ _ => [⟨"p", 1, []⟩], fun _ => none,
            fun _ _ m => List.replicate m ⟨0, 2⟩⟩ "q" 5 3 = .ok finals →
        finals.length
          ≤ min 3 ((⟨fun _ _ => [⟨"p", 1, []⟩], fun _ => none,
              fun _ _ m => List.replicate m ⟨0, 2⟩⟩ : UtilsEnv).topDocuments
                "q" 5).length) :=
  ⟨(search_and_rerank_cardinality
      ⟨fun _ _ => [], fun _ => none, fun _ _ _ => [⟨0, 1⟩]⟩
      "royal family" 10 5).1 (by decide) (fun _ _ _ => [⟨0, 1⟩]),
    (search_and_rerank_cardinality
      ⟨fun _ _ => [⟨"p", 1, []⟩], fun _ => none,
        fun _ _ m => List.replicate m ⟨0, 2⟩⟩ "q" 5 3).2.2
      (fun q ts m => by simp)⟩

/-- Claim C8: the filter builder yields None when neither constraint is
truthy, never a present-but-empty filter; each provided field becomes
an equality clause keyed by its metadata field, and both fields land in
the one mapping when both are provided. -/
theorem build_filter_contract (filter_creator filter_category : Option String) :
    (pyTruthyOpt filter_creator = false → pyTruthyOpt filter_category = false →
      buildFilter filter_creator filter_category = none) ∧
    buildFilter filter_creator filter_category ≠ some [] ∧
    (∀ v : String, filter_creator = some v → v ≠ "" →
      ∃ l, buildFilter filter_creator filter_category = some l ∧
        ("creator", FilterClause.eq v) ∈ l) ∧
    (∀ v : String, filter_category = some v → v ≠ "" →
      ∃ l, buildFilter filter_creator filter_category = some l ∧
        ("categories", FilterClause.eq v) ∈ l) ∧
    (∀ v w : String,
      filter_creator = some v → v ≠ "" → filter_category = some w → w ≠ "" →
      buildFilter filter_creator filter_category
        = some [("creator", FilterClause.eq v), ("categories", FilterClause.eq w)]) := by
  rcases filter_creator with _ | c <;> rcases filter_category with _ | d
  · simp [buildFilter, pyTruthyOpt]
  · by_cases hd : d = "" <;>
      simp [buildFilter, pyTruthyOpt, hd]
  · by_cases hc : c = "" <;>
      simp [buildFilter, pyTruthyOpt, hc]
  · by_cases hc : c = "" <;> by_cases hd : d = "" <;>
      simp [buildFilter, pyTruthyOpt, hc, hd]

/-- Witness for C8: both constraints provided yield the one two-clause
mapping. -/
theorem build_filter_contract_witness :
    buildFilter (some "Arno Crampont") (some "TPMP")
      = some [("creator", FilterClause.eq "Arno Crampont"),
              ("categories", FilterClause.eq "TPMP")] :=
  (build_filter_contract (some "Arno Crampont") (some "TPMP")).2.2.2.2
    "Arno Crampont" "TPMP" rfl (by decide) rfl (by decide)

/-- Claim C4: a search invocation whose mode is none of documents,
snippets, pages, advanced makes search_articles fail with the
configuration error (the raised exception for the unmatched dispatch),
never a silent no-op or an empty result value. -/
theorem search_articles_unknown_mode
    (env : SearchEnv) (query search_type : String) (k : Nat)
    (filter_creator filter_category : Option String) (reranker : String)
    (h1 : search_type ≠ "documents") (h2 : search_type ≠ "snippets")
    (h3 : search_type ≠ "pages") (h4 : search_type ≠ "advanced") :
    searchArticles env query search_type k filter_creator filter_category reranker
      = .error .configurationError := by
  simp [searchArticles, h1, h2, h3, h4]

/-- Witness for C4: the unknown mode "paragraphs" is rejected with the
configuration error. -/
theorem search_articles_unknown_mode_witness :
    searchArticles
        ⟨fun _ _ _ _ => [], fun _ _ _ _ => [], fun _ _ _ => [],
          ⟨fun _ _ => [], fun _ => none, fun _ _ _ => []⟩⟩
        "famille royale" "paragraphs" 5 none none "zerank-1-small"
      = .error .configurationError :=
  search_articles_unknown_mode
    ⟨fun _ _ _ _ => [], fun _ _ _ _ => [], fun _ _ _ => [],
      ⟨fun _ _ => [], fun _ => none, fun _ _ _ => []⟩⟩
    "famille royale" "paragraphs" 5 none none "zerank-1-small"
    (by decide) (by decide) (by decide) (by decide)

/-- Claim C10: delete_collection returns True whenever it returns at
all (failures propagate as exceptions), so manage_collections can never
reach its "Failed to delete collection" log line, for any action and
collection name. -/
theorem delete_collection_always_true :
    (∀ (outcome : Except PyErr Unit) (b : Bool) (logs : List LogMsg),
      deleteCollection outcome = .ok (b, logs) → b = true) ∧
    (∀ (env : ManageEnv) (action : String) (collection_name : Option String)
        (r : ManageResult) (logs : List LogMsg),
      manageCollections env action collection_name = .ok (r, logs) →
      LogMsg.deleteFailed ∉ logs) := by
  constructor
  · intro outcome b logs h
    cases outcome with
    | ok u => simp [deleteCollection] at h; exact h.1
    | error e => simp [deleteCollection] at h
  · intro env action collection_name r logs h
    unfold manageCollections at h
    split at h
    · cases h; decide
    · split at h
      · cases hdel : env.deleteOutcome (collection_name.getD "") with
        | ok u =>
          rw [hdel] at h
          simp [deleteCollection] at h
          rcases h with ⟨_, hlogs⟩
          rw [← hlogs]
          decide
        | error e =>
          rw [hdel] at h
          simp [deleteCollection] at h
      · split at h
        · cases h; decide
        · cases h; decide

/-- Witness for C10: a successful delete logs only the two success
lines, never the failure line. -/
theorem delete_collection_always_true_witness :
    manageCollections ⟨["articles"], fun _ => .ok (), ⟨0, 0, 0, 0, 0⟩⟩
        "delete" (some "articles")
      = .ok (.deleted true, [LogMsg.deletedCollectionUtils, LogMsg.deleteSucceeded]) ∧
    LogMsg.deleteFailed ∉ [LogMsg.deletedCollectionUtils, LogMsg.deleteSucceeded] :=
  ⟨rfl,
    delete_collection_always_true.2 ⟨["articles"], fun _ => .ok (), ⟨0, 0, 0, 0, 0⟩⟩
      "delete" (some "articles") (.deleted true)
      [LogMsg.deletedCollectionUtils, LogMsg.deleteSucceeded] rfl⟩

end ZCookbook
